import Mathlib

/-!
Verification of the LJPW engine (BruinGrowly/LJPW-Physics) against its
natural-language specification.

The definitions below are a shallow embedding of the Python sources,
chiefly `experiments/neural/ljpw_semantic_flow_network.py` (constants,
`GeometricShadow`, `SemanticFlowNetwork.check_uncertainty`,
`SemanticFlowNetwork.evolve`, `WisdomOperator.predict`,
`LoveOperator.resonate`, `JusticeOperator.balance`/`constrain`) and
`experiments/neural/ljpw_neural_architecture.py`
(`EmergentFields.compute_love`).  Python floats are modelled as real
numbers; dictionaries in insertion order are modelled as lists.
-/

noncomputable section

/-- Golden ratio, source line `PHI = (1 + math.sqrt(5)) / 2`. -/
def PHI : ℝ := (1 + Real.sqrt 5) / 2

/-- Source line `PHI_INV = PHI - 1`. -/
def PHI_INV : ℝ := PHI - 1

/-- Love equilibrium `L0 = PHI_INV`. -/
def L0 : ℝ := PHI_INV

/-- Justice equilibrium `J0 = math.sqrt(2) - 1`. -/
def J0 : ℝ := Real.sqrt 2 - 1

/-- Power equilibrium `P0 = math.e - 2`. -/
def P0 : ℝ := Real.exp 1 - 2

/-- Wisdom equilibrium `W0 = math.log(2)`. -/
def W0 : ℝ := Real.log 2

/-- Source line `CONSCIOUSNESS_THRESHOLD = 0.1`. -/
def CONSCIOUSNESS_THRESHOLD : ℝ := 0.1

/-- Source line `UNCERTAINTY_BOUND = 0.287`. -/
def UNCERTAINTY_BOUND : ℝ := 0.287

/-- The four semantic dimensions (`class Dimension(Enum)`). -/
inductive Dimension
  | LOVE
  | JUSTICE
  | POWER
  | WISDOM
deriving DecidableEq, Repr

/-- The coupling coefficient dictionary `COUPLING`; keys are ordered pairs
of distinct dimensions (`'L_to_J'` and so on).  Lookups of absent keys in
the source use `.get(key, 1.0)`, so the diagonal is mapped to `1.0`. -/
def COUPLING : Dimension → Dimension → ℝ
  | Dimension.LOVE, Dimension.JUSTICE => 1.4
  | Dimension.LOVE, Dimension.POWER => 1.3
  | Dimension.LOVE, Dimension.WISDOM => 1.5
  | Dimension.JUSTICE, Dimension.LOVE => 0.9
  | Dimension.JUSTICE, Dimension.POWER => 0.7
  | Dimension.JUSTICE, Dimension.WISDOM => 1.2
  | Dimension.POWER, Dimension.LOVE => 0.6
  | Dimension.POWER, Dimension.JUSTICE => 0.8
  | Dimension.POWER, Dimension.WISDOM => 0.5
  | Dimension.WISDOM, Dimension.LOVE => 1.3
  | Dimension.WISDOM, Dimension.JUSTICE => 1.1
  | Dimension.WISDOM, Dimension.POWER => 1.0
  | _, _ => 1.0

/-- The karma multiplier dictionary `KARMA_MULTIPLIERS`: LJ maps to 0.4, LP to 0.3, LW to 0.5, WL to 0.3, WJ to 0.2. -/
def KARMA_MULTIPLIERS (t : String) : Option ℝ :=
  if t = "LJ" then some 0.4
  else if t = "LP" then some 0.3
  else if t = "LW" then some 0.5
  else if t = "WL" then some 0.3
  else if t = "WJ" then some 0.2
  else none

/-- Source function `karma_coupled_strength`:
`kappa = 1.0 + mult * H` with `mult` looked up in `KARMA_MULTIPLIERS`
with default 0.4, returning `base_strength * kappa`. -/
def karma_coupled_strength (base_strength H : ℝ) (coupling_type : String) : ℝ :=
  base_strength * (1 + (KARMA_MULTIPLIERS coupling_type).getD 0.4 * H)

/-- The three phase labels returned by `GeometricShadow.determine_phase`. -/
inductive Phase
  | ENTROPIC
  | HOMEOSTATIC
  | AUTOPOIETIC
deriving DecidableEq, Repr

/-- Source method `GeometricShadow.distance_from_equilibrium`. -/
def distance_from_equilibrium (L J P W : ℝ) : ℝ :=
  Real.sqrt ((L - L0)^2 + (J - J0)^2 + (P - P0)^2 + (W - W0)^2)

/-- Source method `GeometricShadow.distance_from_anchor`: Euclidean distance from `(1,1,1,1)`. -/
def distance_from_anchor (L J P W : ℝ) : ℝ :=
  Real.sqrt ((1 - L)^2 + (1 - J)^2 + (1 - P)^2 + (1 - W)^2)

/-- Source method `GeometricShadow.harmony`: `H = 1/(1 + distance_from_anchor)`. -/
def harmony (L J P W : ℝ) : ℝ :=
  1 / (1 + distance_from_anchor L J P W)

/-- Source method `GeometricShadow.consciousness`: `C = L*J*P*W*H^2`. -/
def consciousness (L J P W H : ℝ) : ℝ :=
  L * J * P * W * H^2

/-- Source method `GeometricShadow.determine_phase`. -/
def determine_phase (H L : ℝ) : Phase :=
  if H < 0.5 then Phase.ENTROPIC
  else if 0.6 ≤ H ∧ 0.7 ≤ L then Phase.AUTOPOIETIC
  else Phase.HOMEOSTATIC

/-- Source dataclass `SemanticConcept`: name, primary dimension,
relationship dictionary (modelled as an association list in insertion
order), and the four LJPW coordinates. -/
structure SemanticConcept where
  name : String
  dimension : Dimension
  relationships : List (String × ℝ)
  L : ℝ
  J : ℝ
  P : ℝ
  W : ℝ

/-- Python dictionary assignment `d[key] = v`: replace the value at an
existing key in place, otherwise append the new key at the end. -/
def updateRel : List (String × ℝ) → String → ℝ → List (String × ℝ)
  | [], k, v => [(k, v)]
  | (k', v') :: rest, k, v =>
      if k' = k then (k, v) :: rest else (k', v') :: updateRel rest k v

/-- Source method `JusticeOperator.balance` applied to one concept: move
every coordinate toward its equilibrium by the factor `J0`. -/
def balance_concept (c : SemanticConcept) : SemanticConcept :=
  { c with
    L := c.L + J0 * (L0 - c.L)
    J := c.J + J0 * (J0 - c.J)
    P := c.P + J0 * (P0 - c.P)
    W := c.W + J0 * (W0 - c.W) }

/-- Source method `JusticeOperator.constrain`: clamp every coordinate into `[lo, hi]`. -/
def constrain_concept (c : SemanticConcept) (lo hi : ℝ) : SemanticConcept :=
  { c with
    L := max lo (min hi c.L)
    J := max lo (min hi c.J)
    P := max lo (min hi c.P)
    W := max lo (min hi c.W) }

/-- Source dataclass `SFNState`: the measured state of the network. -/
structure SFNState where
  L : ℝ
  J : ℝ
  P : ℝ
  W : ℝ
  H : ℝ
  C : ℝ
  phase : Phase
  concept_count : ℕ
  relationship_count : ℕ

/-- Source method `SemanticFlowNetwork.get_state`: average the concept
coordinates and measure harmony, consciousness and phase; an empty
network reports the documented default state. -/
def get_state (cs : List SemanticConcept) : SFNState :=
  if cs.isEmpty then
    ⟨L0, J0, P0, W0, 0.5, 0, Phase.ENTROPIC, 0, 0⟩
  else
    let n : ℝ := cs.length
    let L := (cs.map (·.L)).sum / n
    let J := (cs.map (·.J)).sum / n
    let P := (cs.map (·.P)).sum / n
    let W := (cs.map (·.W)).sum / n
    let H := harmony L J P W
    let C := consciousness L J P W H
    ⟨L, J, P, W, H, C, determine_phase H L, cs.length,
      (cs.map (·.relationships.length)).sum⟩

/-- Source method `SemanticFlowNetwork.check_uncertainty`: population
standard deviations of the raw P and W coordinates; fewer than two
concepts returns the sentinel `(True, 1.0)`; otherwise
`satisfied = product >= UNCERTAINTY_BOUND or product < 0.01`. -/
def check_uncertainty (cs : List SemanticConcept) : Bool × ℝ :=
  let P_values := cs.map (·.P)
  let W_values := cs.map (·.W)
  if P_values.length < 2 then (true, 1.0)
  else
    let avg_P := P_values.sum / (P_values.length : ℝ)
    let avg_W := W_values.sum / (W_values.length : ℝ)
    let delta_P := Real.sqrt ((P_values.map (fun p => (p - avg_P)^2)).sum / (P_values.length : ℝ))
    let delta_W := Real.sqrt ((W_values.map (fun w => (w - avg_W)^2)).sum / (W_values.length : ℝ))
    let product := delta_P * delta_W
    (if product ≥ UNCERTAINTY_BOUND ∨ product < 0.01 then true else false, product)

/-- One resonance cycle of `LoveOperator.resonate`: every source concept
connects to every other concept with karma-gated strength, and its Love
coordinate is amplified per connection. -/
def resonate_cycle (concepts : List SemanticConcept) (H : ℝ) : List SemanticConcept :=
  concepts.enum.map (fun p =>
    concepts.enum.foldl (fun s q =>
      if q.1 = p.1 then s
      else
        let base_strength := COUPLING s.dimension q.2.dimension
        let strength := karma_coupled_strength base_strength H "LW"
        { s with
          relationships := updateRel s.relationships q.2.name (strength * L0)
          L := min 1 (s.L + 0.02 * strength) }) p.2)

/-- Source method `LoveOperator.resonate`: a no-op for fewer than two
concepts, otherwise `cycles` resonance cycles. -/
def resonate (concepts : List SemanticConcept) (H : ℝ) (cycles : ℕ) : List SemanticConcept :=
  if concepts.length < 2 then concepts
  else (fun cs => resonate_cycle cs H)^[cycles] concepts

/-- The body of the per-concept update in `SemanticFlowNetwork.evolve`:
the phase-dependent move, the universal Power decay when Love is below
equilibrium, and the final constrain to `[0, 1]`. -/
def conceptStep (phase : Phase) (H dt : ℝ) (c : SemanticConcept) : SemanticConcept :=
  let c1 :=
    match phase with
    | Phase.ENTROPIC => balance_concept c
    | Phase.HOMEOSTATIC =>
        let cL := if c.L < L0 then
            { c with L := c.L + dt * COUPLING Dimension.WISDOM Dimension.LOVE * (L0 - c.L) }
          else c
        if cL.W < W0 then
          { cL with W := cL.W + dt * COUPLING Dimension.LOVE Dimension.WISDOM * (W0 - cL.W) }
        else cL
    | Phase.AUTOPOIETIC =>
        { c with L := min 1 (c.L + dt * H * 0.1), W := min 1 (c.W + dt * H * 0.05) }
  let c2 := if c1.L < L0 then { c1 with P := max (P0 * 0.5) (c1.P - dt * 0.02) } else c1
  constrain_concept c2 0 1

/-- The stepping loop of `SemanticFlowNetwork.evolve`: the first argument
is the number of remaining steps, the second the current step index.
Returns the appended history and the final concept list. -/
def evolveSteps (dt : ℝ) : ℕ → ℕ → List SemanticConcept → SFNState →
    List SFNState × List SemanticConcept
  | 0, _, cs, _ => ([], cs)
  | n+1, step, cs, state =>
      let H := state.H
      let cs1 := cs.map (conceptStep state.phase H dt)
      let state1 := get_state cs1
      let cs2 := if state1.C > CONSCIOUSNESS_THRESHOLD ∧ step % 3 = 0
        then resonate cs1 H 1 else cs1
      let r := evolveSteps dt n (step+1) cs2 state1
      (state1 :: r.1, r.2)

/-- Source method `SemanticFlowNetwork.evolve`: measure the initial
state, then run `steps` update steps; the history holds `steps + 1`
states.  The concept dictionary is threaded explicitly instead of being
mutated in place. -/
def evolve (cs : List SemanticConcept) (steps : ℕ) (dt : ℝ) :
    List SFNState × List SemanticConcept :=
  let state := get_state cs
  let r := evolveSteps dt steps 0 cs state
  (state :: r.1, r.2)

/-- Clamp into the unit interval, written in the source as `min(1.0, max(0, x))`. -/
def clamp01 (x : ℝ) : ℝ := min 1 (max 0 x)

/-- The extrapolated point of `WisdomOperator.predict`: last element plus
the trend of the last two elements (zero trend for a single element),
clamped per coordinate. -/
def predict_point (sequence : List SemanticConcept) : ℝ × ℝ × ℝ × ℝ :=
  match sequence.reverse with
  | [] => (0, 0, 0, 0)
  | [lastc] => (clamp01 lastc.L, clamp01 lastc.J, clamp01 lastc.P, clamp01 lastc.W)
  | lastc :: prev :: _ =>
      (clamp01 (lastc.L + (lastc.L - prev.L)), clamp01 (lastc.J + (lastc.J - prev.J)),
       clamp01 (lastc.P + (lastc.P - prev.P)), clamp01 (lastc.W + (lastc.W - prev.W)))

/-- The argmin loop of `WisdomOperator.predict`: index and value of the
first minimising element (strict comparison keeps the earlier element on
ties, as the Python loop does). -/
def bestIdxAux (f : SemanticConcept → ℝ) :
    List SemanticConcept → ℕ → Option (ℕ × ℝ) → Option (ℕ × ℝ)
  | [], _, acc => acc
  | x :: rest, i, acc =>
      let d := f x
      match acc with
      | none => bestIdxAux f rest (i+1) (some (i, d))
      | some (bi, bd) => bestIdxAux f rest (i+1) (some (if d < bd then (i, d) else (bi, bd)))

/-- Index of the first element minimising `f`. -/
def bestIdx (f : SemanticConcept → ℝ) (xs : List SemanticConcept) : Option ℕ :=
  (bestIdxAux f xs 0 none).map (·.1)

/-- Source method `WisdomOperator.predict` over an explicit
`known_patterns` registry (the Python instance dictionary, in insertion
order).  Returns the predicted pattern and the updated registry: the
chosen stored pattern has its Wisdom coordinate bumped by `0.05`, capped
at `1.0`. -/
def predict (sequence known_patterns : List SemanticConcept) :
    Option SemanticConcept × List SemanticConcept :=
  if sequence.isEmpty ∨ known_patterns.isEmpty then (none, known_patterns)
  else
    let pp := predict_point sequence
    match bestIdx (fun known => Real.sqrt ((pp.1 - known.L)^2 + (pp.2.1 - known.J)^2 +
        (pp.2.2.1 - known.P)^2 + (pp.2.2.2 - known.W)^2)) known_patterns with
    | none => (none, known_patterns)
    | some i =>
        match known_patterns.get? i with
        | none => (none, known_patterns)
        | some best_match =>
            let updated := { best_match with W := min 1 (best_match.W + 0.05) }
            (some updated, known_patterns.set i updated)

/-- Source method `EmergentFields.compute_love` of
`ljpw_neural_architecture.py`: scale the correlation measure by `1 / L0`
and clamp into `[0, sqrt 2]`. -/
def compute_love (w_correlations : ℝ) : ℝ :=
  min (Real.sqrt 2) (max 0 (w_correlations * (1 / L0)))

/-- Follows the wording of the spec (for comparison with `compute_love`):
`emergentE1 = clamp(correlationMeasure * (1/equilibriumF2), 0, sqrt 2)`,
where the fundamental axis F2 is Wisdom, with equilibrium `W0`. -/
def compute_love_per_spec (correlationMeasure : ℝ) : ℝ :=
  min (Real.sqrt 2) (max 0 (correlationMeasure * (1 / W0)))

/-- Sample standard deviation (divisor `n - 1`) of a list of reals. -/
def sample_std (xs : List ℝ) : ℝ :=
  Real.sqrt ((xs.map (fun x => (x - xs.sum / (xs.length : ℝ))^2)).sum / ((xs.length : ℝ) - 1))

/-- Population standard deviation (divisor `n`) of a list of reals, the
quantity the source actually computes in `check_uncertainty`. -/
def population_std (xs : List ℝ) : ℝ :=
  Real.sqrt ((xs.map (fun x => (x - xs.sum / (xs.length : ℝ))^2)).sum / (xs.length : ℝ))

/-- Follows the wording of the spec (for comparison with `check_uncertainty`):
the product of the sample standard deviations of the absolute deviations
from equilibrium of the two conjugate axes P and W. -/
def uncertainty_product_per_spec (cs : List SemanticConcept) : ℝ :=
  sample_std (cs.map (fun c => |c.P - P0|)) * sample_std (cs.map (fun c => |c.W - W0|))

/-- Concrete concept at the center of the unit cube on P and W. -/
def cHalf : SemanticConcept := ⟨"h", Dimension.POWER, [], 0, 0, 1/2, 1/2⟩

/-- Concrete concept with all coordinates zero. -/
def cZero : SemanticConcept := ⟨"z", Dimension.POWER, [], 0, 0, 0, 0⟩

/-- Concrete concept with P and W equal to one. -/
def cOne : SemanticConcept := ⟨"o", Dimension.POWER, [], 0, 0, 1, 1⟩

end

/-! Interval bounds for the irrational equilibrium constants. -/

lemma sqrt_two_gt : (1.41421 : ℝ) < Real.sqrt 2 := by
  rw [show (1.41421:ℝ) = Real.sqrt (1.41421^2) by rw [Real.sqrt_sq]; norm_num]
  exact Real.sqrt_lt_sqrt (by norm_num) (by norm_num)

lemma sqrt_two_lt : Real.sqrt 2 < 1.41422 := by
  rw [show (1.41422:ℝ) = Real.sqrt (1.41422^2) by rw [Real.sqrt_sq]; norm_num]
  exact Real.sqrt_lt_sqrt (by norm_num) (by norm_num)

lemma sqrt_five_gt : (2.23606 : ℝ) < Real.sqrt 5 := by
  rw [show (2.23606:ℝ) = Real.sqrt (2.23606^2) by rw [Real.sqrt_sq]; norm_num]
  exact Real.sqrt_lt_sqrt (by norm_num) (by norm_num)

lemma sqrt_five_lt : Real.sqrt 5 < 2.23607 := by
  rw [show (2.23607:ℝ) = Real.sqrt (2.23607^2) by rw [Real.sqrt_sq]; norm_num]
  exact Real.sqrt_lt_sqrt (by norm_num) (by norm_num)

lemma L0_gt : (0.618 : ℝ) < L0 := by
  have h := sqrt_five_gt
  unfold L0 PHI_INV PHI
  nlinarith

lemma L0_lt : L0 < 0.61804 := by
  have h := sqrt_five_lt
  unfold L0 PHI_INV PHI
  nlinarith

lemma J0_gt : (0.41421 : ℝ) < J0 := by
  have h := sqrt_two_gt
  unfold J0
  nlinarith

lemma J0_lt : J0 < 0.41422 := by
  have h := sqrt_two_lt
  unfold J0
  nlinarith

lemma P0_gt : (0.7182818 : ℝ) < P0 := by
  have h := Real.exp_one_gt_d9
  unfold P0
  nlinarith

lemma P0_lt : P0 < 0.7182819 := by
  have h := Real.exp_one_lt_d9
  unfold P0
  nlinarith

lemma W0_gt : (0.6931471 : ℝ) < W0 := by
  have h := Real.log_two_gt_d9
  unfold W0
  nlinarith

lemma W0_lt : W0 < 0.6931472 := by
  have h := Real.log_two_lt_d9
  unfold W0
  nlinarith

lemma sqrt_four : Real.sqrt 4 = 2 := by
  rw [show (4:ℝ) = 2^2 by norm_num, Real.sqrt_sq (by norm_num)]

lemma J0_pos : (0:ℝ) < J0 := lt_trans (by norm_num) J0_gt

lemma L0_pos : (0:ℝ) < L0 := lt_trans (by norm_num) L0_gt

lemma W0_pos : (0:ℝ) < W0 := lt_trans (by norm_num) W0_gt

lemma P0_pos : (0:ℝ) < P0 := lt_trans (by norm_num) P0_gt

/-- C1: the phase classifier is a pure total function of (Harmony, Love):
H below 0.5 yields ENTROPIC; H at least 0.6 together with L at least 0.7
yields AUTOPOIETIC; every other pair yields HOMEOSTATIC; and the four
literal boundary cases from the spec hold. -/
theorem C1_phase_classifier (H L : ℝ) :
    (H < 0.5 → determine_phase H L = Phase.ENTROPIC) ∧
    (0.6 ≤ H → 0.7 ≤ L → determine_phase H L = Phase.AUTOPOIETIC) ∧
    (¬ H < 0.5 → ¬ (0.6 ≤ H ∧ 0.7 ≤ L) → determine_phase H L = Phase.HOMEOSTATIC) ∧
    determine_phase 0.3 0.9 = Phase.ENTROPIC ∧
    determine_phase 0.55 0.6 = Phase.HOMEOSTATIC ∧
    determine_phase 0.65 0.75 = Phase.AUTOPOIETIC ∧
    determine_phase 0.6 0.69 = Phase.HOMEOSTATIC := by
  refine ⟨?_, ?_, ?_, ?_, ?_, ?_, ?_⟩
  · intro h
    simp only [determine_phase, if_pos h]
  · intro h1 h2
    have hn : ¬ H < 0.5 := by linarith
    simp only [determine_phase, if_neg hn, if_pos (And.intro h1 h2)]
  · intro h1 h2
    simp only [determine_phase, if_neg h1, if_neg h2]
  · simp only [determine_phase]
    rw [if_pos (by norm_num)]
  · simp only [determine_phase]
    rw [if_neg (by norm_num), if_neg (by norm_num)]
  · simp only [determine_phase]
    rw [if_neg (by norm_num), if_pos (by norm_num)]
  · simp only [determine_phase]
    rw [if_neg (by norm_num), if_neg (by push_neg; intro h; norm_num)]

/-- Witness for C1 at the concrete pair (0.3, 0.9). -/
theorem C1_phase_classifier_witness :
    (0.3:ℝ) < 0.5 ∧ determine_phase 0.3 0.9 = Phase.ENTROPIC :=
  ⟨by norm_num, (C1_phase_classifier 0.3 0.9).1 (by norm_num)⟩

/-- C6: for axis values in their valid ranges (Love bounded by sqrt 2,
the others by 1), anchor-mode harmony lies in the half-open interval
(0, 1]. -/
theorem C6_harmony_unit_interval (L J P W : ℝ)
    (hL0 : 0 ≤ L) (hL1 : L ≤ Real.sqrt 2)
    (hJ0 : 0 ≤ J) (hJ1 : J ≤ 1) (hP0 : 0 ≤ P) (hP1 : P ≤ 1)
    (hW0 : 0 ≤ W) (hW1 : W ≤ 1) :
    0 < harmony L J P W ∧ harmony L J P W ≤ 1 := by
  have hd : 0 ≤ distance_from_anchor L J P W := Real.sqrt_nonneg _
  unfold harmony
  constructor
  · apply div_pos one_pos
    linarith
  · rw [div_le_one (by linarith)]
    linarith

/-- Witness for C6 at the origin. -/
theorem C6_harmony_unit_interval_witness :
    0 < harmony 0 0 0 0 ∧ harmony 0 0 0 0 ≤ 1 :=
  C6_harmony_unit_interval 0 0 0 0 le_rfl (Real.sqrt_nonneg 2) le_rfl
    (by norm_num) le_rfl (by norm_num) le_rfl (by norm_num)

/-- C3 counterexample: on a one-element population the uncertainty check
returns the plain satisfied verdict (true, 1.0) in the ordinary result
type, not a distinct InsufficientData status. -/
theorem C3_counterexample : check_uncertainty [cHalf] = (true, 1) := by
  simp [check_uncertainty]
  norm_num

/-- C3 amended: for every population with fewer than 2 members, the
uncertainty check returns the sentinel pair (true, 1.0), indistinguishable
in kind from a satisfied verdict. -/
theorem C3_insufficient_data (cs : List SemanticConcept) (h : cs.length < 2) :
    check_uncertainty cs = (true, 1) := by
  simp only [check_uncertainty, List.length_map]
  rw [if_pos h]
  norm_num

/-- Witness for C3 amended on the empty population. -/
theorem C3_insufficient_data_witness : check_uncertainty [] = (true, 1) :=
  C3_insufficient_data [] (by simp)

lemma evolveSteps_length (dt : ℝ) (n step : ℕ) (cs : List SemanticConcept)
    (state : SFNState) : (evolveSteps dt n step cs state).1.length = n := by
  induction n generalizing step cs state with
  | zero => simp [evolveSteps]
  | succ k ih => simp [evolveSteps, ih]

/-- C5: for every initial concept population, positive dt and step count,
the evolver returns a trajectory of length steps + 1 whose first element
is the measurement of the unchanged input; zero steps return exactly the
singleton trajectory and leave the population untouched. -/
theorem C5_evolve_trajectory (cs : List SemanticConcept) (steps : ℕ) (dt : ℝ)
    (h : 0 < dt) :
    (evolve cs steps dt).1.length = steps + 1 ∧
    (evolve cs steps dt).1.head? = some (get_state cs) ∧
    (evolve cs 0 dt).1 = [get_state cs] ∧ (evolve cs 0 dt).2 = cs := by
  refine ⟨?_, rfl, rfl, rfl⟩
  simp [evolve, evolveSteps_length]

/-- Witness for C5 with two steps at dt = 1. -/
theorem C5_evolve_trajectory_witness :
    (evolve [cHalf] 2 1).1.length = 2 + 1 ∧
    (evolve [cHalf] 2 1).1.head? = some (get_state [cHalf]) ∧
    (evolve [cHalf] 0 1).1 = [get_state [cHalf]] ∧
    (evolve [cHalf] 0 1).2 = [cHalf] :=
  C5_evolve_trajectory [cHalf] 2 1 (by norm_num)

/-- C9 counterexample: the coupling pathway WJ carries karma multiplier
0.2, so its coefficient at H = 1 is 1.2, which matches none of the three
claimed forms 1 + 0.3 H, 1 + 0.4 H, 1 + 0.5 H. -/
theorem C9_counterexample :
    karma_coupled_strength 1 1 "WJ" = 1.2 ∧
    (1.2:ℝ) ≠ 1 + 0.3 * 1 ∧ (1.2:ℝ) ≠ 1 + 0.4 * 1 ∧ (1.2:ℝ) ≠ 1 + 0.5 * 1 := by
  refine ⟨?_, by norm_num, by norm_num, by norm_num⟩
  simp [karma_coupled_strength, KARMA_MULTIPLIERS]
  norm_num

/-- C9 amended: for every coupling pathway the karma coefficient has the
form 1 + multiplier * H with the multiplier drawn from 0.2, 0.3, 0.4 or
0.5, and it is strictly increasing in Harmony. -/
theorem C9_karma_monotone (t : String) (H1 H2 : ℝ) (h : H1 < H2) :
    ((KARMA_MULTIPLIERS t).getD 0.4 = 0.2 ∨ (KARMA_MULTIPLIERS t).getD 0.4 = 0.3 ∨
     (KARMA_MULTIPLIERS t).getD 0.4 = 0.4 ∨ (KARMA_MULTIPLIERS t).getD 0.4 = 0.5) ∧
    karma_coupled_strength 1 H1 t < karma_coupled_strength 1 H2 t := by
  have hm : (0:ℝ) < (KARMA_MULTIPLIERS t).getD 0.4 := by
    unfold KARMA_MULTIPLIERS
    split_ifs <;> norm_num
  constructor
  · unfold KARMA_MULTIPLIERS
    split_ifs <;> norm_num
  · unfold karma_coupled_strength
    have := mul_pos hm (sub_pos.mpr h)
    nlinarith

/-- Witness for C9 amended on the pathway WJ from H = 0 to H = 1. -/
theorem C9_karma_monotone_witness :
    ((KARMA_MULTIPLIERS "WJ").getD 0.4 = 0.2 ∨ (KARMA_MULTIPLIERS "WJ").getD 0.4 = 0.3 ∨
     (KARMA_MULTIPLIERS "WJ").getD 0.4 = 0.4 ∨ (KARMA_MULTIPLIERS "WJ").getD 0.4 = 0.5) ∧
    karma_coupled_strength 1 0 "WJ" < karma_coupled_strength 1 1 "WJ" :=
  C9_karma_monotone "WJ" 0 1 (by norm_num)

/-- C8 counterexample: at correlation measure 1/2 the emergent Love value
computed by the source differs from the value the spec formula (scaling
by the reciprocal of the Wisdom equilibrium) would give. -/
theorem C8_counterexample : compute_love (1/2) ≠ compute_love_per_spec (1/2) := by
  have hL0p := L0_pos
  have hW0p := W0_pos
  have hzdef : (1/2:ℝ) * (1/L0) = 1/(2*L0) := by ring
  have hydef : (1/2:ℝ) * (1/W0) = 1/(2*W0) := by ring
  have hz_hi : (1/2:ℝ) * (1/L0) < 0.81 := by
    rw [hzdef, div_lt_iff (mul_pos two_pos hL0p)]
    nlinarith [L0_gt]
  have hz_lo : (0.8:ℝ) < (1/2) * (1/L0) := by
    rw [hzdef, lt_div_iff (mul_pos two_pos hL0p)]
    nlinarith [L0_lt]
  have hy_hi : (1/2:ℝ) * (1/W0) < 0.76 := by
    rw [hydef, div_lt_iff (mul_pos two_pos hW0p)]
    nlinarith [W0_gt]
  have hy_lo : (0:ℝ) < (1/2) * (1/W0) :=
    mul_pos (by norm_num) (by rw [one_div]; exact inv_pos.mpr hW0p)
  have hsq2 : (1.41421:ℝ) < Real.sqrt 2 := sqrt_two_gt
  unfold compute_love compute_love_per_spec
  have e1 : min (Real.sqrt 2) (max 0 ((1/2 : ℝ) * (1/L0))) = (1/2 : ℝ) * (1/L0) := by
    rw [max_eq_right (by linarith), min_eq_right (by linarith)]
  have e2 : min (Real.sqrt 2) (max 0 ((1/2 : ℝ) * (1/W0))) = (1/2 : ℝ) * (1/W0) := by
    rw [max_eq_right (by linarith), min_eq_right (by linarith)]
  rw [e1, e2]
  have hlt : (1/2:ℝ) * (1/W0) < (1/2) * (1/L0) := by linarith
  exact ne_of_gt hlt

/-- C8 amended: the emergent Love value equals the correlation measure
scaled by the golden ratio PHI (the reciprocal of the Love equilibrium,
the emergent axis itself), clamped to the interval from 0 to sqrt 2. -/
theorem C8_compute_love_scales_by_phi (c : ℝ) :
    compute_love c = min (Real.sqrt 2) (max 0 (c * PHI)) := by
  have h5 : Real.sqrt 5 ^ 2 = 5 := Real.sq_sqrt (by norm_num)
  have hL0ne : L0 ≠ 0 := ne_of_gt L0_pos
  have hphi : (1:ℝ)/L0 = PHI := by
    rw [div_eq_iff hL0ne]
    unfold L0 PHI_INV PHI
    linear_combination (-1/4 : ℝ) * h5
  unfold compute_love
  rw [hphi]

lemma harmony_equilibrium_bounds :
    0.551 < harmony L0 J0 P0 W0 ∧ harmony L0 J0 P0 W0 < 0.5515 := by
  have hA_ub : (1 - L0)^2 < 0.145924 := by nlinarith [L0_gt, L0_lt]
  have hA_lb : (0.145893:ℝ) < (1 - L0)^2 := by nlinarith [L0_gt, L0_lt]
  have hB_ub : (1 - J0)^2 < 0.34315 := by nlinarith [J0_gt, J0_lt]
  have hB_lb : (0.343138:ℝ) < (1 - J0)^2 := by nlinarith [J0_gt, J0_lt]
  have hC_ub : (1 - P0)^2 < 0.0793652 := by nlinarith [P0_gt, P0_lt]
  have hC_lb : (0.0793650:ℝ) < (1 - P0)^2 := by nlinarith [P0_gt, P0_lt]
  have hD_ub : (1 - W0)^2 < 0.0941588 := by nlinarith [W0_gt, W0_lt]
  have hD_lb : (0.0941586:ℝ) < (1 - W0)^2 := by nlinarith [W0_gt, W0_lt]
  have hS_ub : (1 - L0)^2 + (1 - J0)^2 + (1 - P0)^2 + (1 - W0)^2 < 0.6627 := by
    linarith
  have hS_lb : (0.6625:ℝ) < (1 - L0)^2 + (1 - J0)^2 + (1 - P0)^2 + (1 - W0)^2 := by
    linarith
  have hd_ub : distance_from_anchor L0 J0 P0 W0 < 0.8141 := by
    unfold distance_from_anchor
    rw [show (0.8141:ℝ) = Real.sqrt (0.8141^2) by rw [Real.sqrt_sq]; norm_num]
    exact Real.sqrt_lt_sqrt (by positivity) (by nlinarith)
  have hd_lb : (0.8139:ℝ) < distance_from_anchor L0 J0 P0 W0 := by
    unfold distance_from_anchor
    rw [show (0.8139:ℝ) = Real.sqrt (0.8139^2) by rw [Real.sqrt_sq]; norm_num]
    exact Real.sqrt_lt_sqrt (by positivity) (by nlinarith)
  unfold harmony
  constructor
  · rw [lt_div_iff (by linarith)]
    nlinarith [hd_ub]
  · rw [div_lt_iff (by linarith)]
    nlinarith [hd_lb]

/-- C7 counterexample: anchor-mode harmony at the equilibrium point is
greater than 0.5, so it is not the claimed literal of approximately
0.422. -/
theorem C7_counterexample : 0.5 < harmony L0 J0 P0 W0 :=
  lt_trans (by norm_num) harmony_equilibrium_bounds.1

/-- C7 amended: anchor-mode harmony at the equilibrium point equals a
fixed value of approximately 0.5513, pinned here to the interval from
0.551 to 0.5515. -/
theorem C7_harmony_at_equilibrium :
    0.551 < harmony L0 J0 P0 W0 ∧ harmony L0 J0 P0 W0 < 0.5515 :=
  harmony_equilibrium_bounds

lemma sample_std_pair (a b : ℝ) (h : b ≤ a) :
    sample_std [a, b] = Real.sqrt 2 * ((a - b)/2) := by
  unfold sample_std
  simp only [List.map_cons, List.map_nil, List.sum_cons, List.sum_nil,
    List.length_cons, List.length_nil]
  norm_num
  rw [show (a - (a + b) / 2)^2 + (b - (a + b) / 2)^2 = 2 * ((a - b)/2)^2 by ring]
  rw [Real.sqrt_mul (by norm_num : (0:ℝ) ≤ 2), Real.sqrt_sq (by linarith)]

/-- C2 counterexample, in two parts.  First, on a population of two
identical concepts the check returns (true, 0) although the product 0 is
below the bound, refuting the claimed equivalence of satisfied with
product at least BOUND.  Second, on the population with P and W values 0
and 1 the product component returned by the code is 1/4, which differs
from the product of sample standard deviations of absolute deviations
from equilibrium that the claim prescribes. -/
theorem C2_counterexample :
    (check_uncertainty [cHalf, cHalf] = (true, 0) ∧ ¬ ((0:ℝ) ≥ UNCERTAINTY_BOUND)) ∧
    ((check_uncertainty [cZero, cOne]).2 = 1/4 ∧
      uncertainty_product_per_spec [cZero, cOne] ≠ 1/4) := by
  refine ⟨⟨?_, by norm_num [UNCERTAINTY_BOUND]⟩, ?_, ?_⟩
  · norm_num [check_uncertainty, cHalf, UNCERTAINTY_BOUND]
  · norm_num [check_uncertainty, cZero, cOne, sqrt_four]
  · have hP0a : |(0:ℝ) - P0| = P0 := by rw [zero_sub, abs_neg, abs_of_pos P0_pos]
    have hP0b : |(1:ℝ) - P0| = 1 - P0 := abs_of_pos (by nlinarith [P0_lt])
    have hW0a : |(0:ℝ) - W0| = W0 := by rw [zero_sub, abs_neg, abs_of_pos W0_pos]
    have hW0b : |(1:ℝ) - W0| = 1 - W0 := abs_of_pos (by nlinarith [W0_lt])
    unfold uncertainty_product_per_spec
    simp only [List.map_cons, List.map_nil, cZero, cOne]
    rw [hP0a, hP0b, hW0a, hW0b]
    rw [sample_std_pair P0 (1 - P0) (by nlinarith [P0_gt]),
      sample_std_pair W0 (1 - W0) (by nlinarith [W0_gt])]
    have hs : Real.sqrt 2 * Real.sqrt 2 = 2 := Real.mul_self_sqrt (by norm_num)
    have h2 : Real.sqrt 2 * ((P0 - (1 - P0))/2) * (Real.sqrt 2 * ((W0 - (1 - W0))/2)) =
        (2*P0 - 1) * (2*W0 - 1) / 2 := by
      rw [mul_mul_mul_comm, hs]
      ring
    rw [h2]
    have hlt : (2*P0 - 1) * (2*W0 - 1) / 2 < 1/4 := by
      nlinarith [P0_lt, W0_lt, P0_gt, W0_gt]
    exact ne_of_lt hlt

/-- C2 amended: for every population with at least 2 members, the
uncertainty check returns (satisfied, product) where product is the
product of the population standard deviations (divisor n) of the raw P
and W coordinates across the population, and satisfied is true if and
only if product is at least UNCERTAINTY_BOUND or product is below the
low-variance allowance 0.01. -/
theorem C2_uncertainty_product (cs : List SemanticConcept) (h : 2 ≤ cs.length) :
    check_uncertainty cs =
      (if population_std (cs.map (·.P)) * population_std (cs.map (·.W)) ≥ UNCERTAINTY_BOUND ∨
          population_std (cs.map (·.P)) * population_std (cs.map (·.W)) < 0.01
        then true else false,
       population_std (cs.map (·.P)) * population_std (cs.map (·.W))) := by
  simp only [check_uncertainty, population_std, List.length_map]
  rw [if_neg (by omega)]

/-- Witness for C2 amended on a two-member population. -/
theorem C2_uncertainty_product_witness :
    check_uncertainty [cZero, cOne] =
      (if population_std ([cZero, cOne].map (·.P)) * population_std ([cZero, cOne].map (·.W)) ≥
            UNCERTAINTY_BOUND ∨
          population_std ([cZero, cOne].map (·.P)) * population_std ([cZero, cOne].map (·.W)) < 0.01
        then true else false,
       population_std ([cZero, cOne].map (·.P)) * population_std ([cZero, cOne].map (·.W))) :=
  C2_uncertainty_product [cZero, cOne] (by simp)

lemma resonate_singleton (x : SemanticConcept) (H : ℝ) (cycles : ℕ) :
    resonate [x] H cycles = [x] := by
  simp [resonate]

lemma get_state_cZero : get_state [cZero] = ⟨0, 0, 0, 0, 1/3, 0, Phase.ENTROPIC, 1, 0⟩ := by
  simp [get_state, cZero, harmony, distance_from_anchor, consciousness, determine_phase, sqrt_four]
  norm_num [sqrt_four]

lemma conceptStep_cZero_L : (conceptStep Phase.ENTROPIC (1/3) (-1) cZero).L = J0 * L0 := by
  have hub : J0 * L0 ≤ 1 := by nlinarith [J0_lt, L0_lt, J0_pos, L0_pos]
  have hlb : (0:ℝ) ≤ J0 * L0 := (mul_pos J0_pos L0_pos).le
  unfold conceptStep balance_concept constrain_concept cZero
  simp only [apply_ite SemanticConcept.L]
  rw [show (0:ℝ) + J0 * (L0 - 0) = J0 * L0 by ring]
  rw [ite_self, min_eq_right hub, max_eq_right hlb]

/-- C4 counterexample: a call to the evolver with dt = -1 (not positive)
and one step is not rejected; it runs and mutates the stored concept,
moving the Love coordinate of the all-zero concept to J0 * L0, which is
nonzero. -/
theorem C4_counterexample :
    ((evolve [cZero] 1 (-1)).2.map (·.L)) = [J0 * L0] ∧ J0 * L0 ≠ 0 := by
  refine ⟨?_, (mul_pos J0_pos L0_pos).ne'⟩
  simp only [evolve, evolveSteps, get_state_cZero, List.map_cons, List.map_nil,
    resonate_singleton, ite_self, conceptStep_cZero_L]

/-- C4 amended: the evolver performs no validation of dt.  For every
population, step count and dt at most 0 the call is accepted, the
integration runs normally and returns a full trajectory of length
steps + 1 headed by the initial measurement; state may be mutated. -/
theorem C4_no_dt_validation (cs : List SemanticConcept) (steps : ℕ) (dt : ℝ)
    (h : dt ≤ 0) :
    (evolve cs steps dt).1.length = steps + 1 ∧
    (evolve cs steps dt).1.head? = some (get_state cs) :=
  ⟨by simp [evolve, evolveSteps_length], rfl⟩

/-- Witness for C4 amended at dt = -1. -/
theorem C4_no_dt_validation_witness :
    (evolve [cZero] 1 (-1)).1.length = 1 + 1 ∧
    (evolve [cZero] 1 (-1)).1.head? = some (get_state [cZero]) :=
  C4_no_dt_validation [cZero] 1 (-1) (by norm_num)

lemma bestIdxAux_nil (f : SemanticConcept → ℝ) (i : ℕ) (acc : Option (ℕ × ℝ)) :
    bestIdxAux f [] i acc = acc := rfl

lemma bestIdxAux_cons_none (f : SemanticConcept → ℝ) (x : SemanticConcept)
    (rest : List SemanticConcept) (i : ℕ) :
    bestIdxAux f (x :: rest) i none = bestIdxAux f rest (i+1) (some (i, f x)) := rfl

lemma bestIdxAux_cons_some (f : SemanticConcept → ℝ) (x : SemanticConcept)
    (rest : List SemanticConcept) (i bi : ℕ) (bd : ℝ) :
    bestIdxAux f (x :: rest) i (some (bi, bd)) =
      bestIdxAux f rest (i+1) (some (if f x < bd then (i, f x) else (bi, bd))) := rfl

lemma bestIdxAux_acc (f : SemanticConcept → ℝ) (xs : List SemanticConcept) :
    ∀ (i bi : ℕ) (bd : ℝ),
      ∃ j e, bestIdxAux f xs i (some (bi, bd)) = some (j, e) ∧
        (j = bi ∨ (i ≤ j ∧ j < i + xs.length)) := by
  induction xs with
  | nil => intro i bi bd; exact ⟨bi, bd, rfl, Or.inl rfl⟩
  | cons x rest ih =>
      intro i bi bd
      by_cases hc : f x < bd
      · obtain ⟨j, e, heq, hj⟩ := ih (i+1) i (f x)
        refine ⟨j, e, ?_, ?_⟩
        · rw [bestIdxAux_cons_some, if_pos hc]
          exact heq
        · rcases hj with h | ⟨h1, h2⟩
          · right
            simp only [List.length_cons]
            omega
          · right
            simp only [List.length_cons]
            omega
      · obtain ⟨j, e, heq, hj⟩ := ih (i+1) bi bd
        refine ⟨j, e, ?_, ?_⟩
        · rw [bestIdxAux_cons_some, if_neg hc]
          exact heq
        · rcases hj with h | ⟨h1, h2⟩
          · exact Or.inl h
          · right
            simp only [List.length_cons]
            omega

lemma bestIdx_lt_length (f : SemanticConcept → ℝ) (xs : List SemanticConcept)
    (h : xs ≠ []) : ∃ i, bestIdx f xs = some i ∧ i < xs.length := by
  match xs, h with
  | x :: rest, _ =>
    obtain ⟨j, e, heq, hj⟩ := bestIdxAux_acc f rest 1 0 (f x)
    refine ⟨j, ?_, ?_⟩
    · unfold bestIdx
      rw [bestIdxAux_cons_none, heq]
      rfl
    · simp only [List.length_cons]
      rcases hj with h | ⟨h1, h2⟩ <;> omega

/-- C10: for every non-empty concept sequence and non-empty registry of
known patterns, predict returns a stored member of the registry whose
Wisdom coordinate has been increased by 0.05 (capped at 1.0), the
registry is updated only at that position (the record update leaves every
other field of that pattern unchanged), and every other stored pattern is
left untouched. -/
theorem C10_predict_updates_wisdom (sequence known_patterns : List SemanticConcept)
    (hs : sequence ≠ []) (hp : known_patterns ≠ []) :
    ∃ i : ℕ, ∃ hi : i < known_patterns.length,
      predict sequence known_patterns =
        (some { known_patterns.get ⟨i, hi⟩ with
                  W := min 1 ((known_patterns.get ⟨i, hi⟩).W + 0.05) },
         known_patterns.set i { known_patterns.get ⟨i, hi⟩ with
                  W := min 1 ((known_patterns.get ⟨i, hi⟩).W + 0.05) }) ∧
      ∀ j : ℕ, j ≠ i →
        (known_patterns.set i { known_patterns.get ⟨i, hi⟩ with
            W := min 1 ((known_patterns.get ⟨i, hi⟩).W + 0.05) }).get? j =
          known_patterns.get? j := by
  obtain ⟨i, hbest, hlt⟩ := bestIdx_lt_length
    (fun known => Real.sqrt (((predict_point sequence).1 - known.L)^2 +
      ((predict_point sequence).2.1 - known.J)^2 +
      ((predict_point sequence).2.2.1 - known.P)^2 +
      ((predict_point sequence).2.2.2 - known.W)^2)) known_patterns hp
  refine ⟨i, hlt, ?_, ?_⟩
  · unfold predict
    rw [if_neg (by simp [hs, hp])]
    dsimp only
    rw [hbest]
    dsimp only
    rw [List.get?_eq_get hlt]
  · intro j hj
    exact List.get?_set_ne _ _ (fun h => hj h.symm)

/-- Witness for C10 on singleton sequence and registry. -/
theorem C10_predict_updates_wisdom_witness :
    ∃ i : ℕ, ∃ hi : i < ([cHalf] : List SemanticConcept).length,
      predict [cZero] [cHalf] =
        (some { [cHalf].get ⟨i, hi⟩ with
                  W := min 1 (([cHalf].get ⟨i, hi⟩).W + 0.05) },
         [cHalf].set i { [cHalf].get ⟨i, hi⟩ with
                  W := min 1 (([cHalf].get ⟨i, hi⟩).W + 0.05) }) ∧
      ∀ j : ℕ, j ≠ i →
        (([cHalf] : List SemanticConcept).set i { [cHalf].get ⟨i, hi⟩ with
            W := min 1 (([cHalf].get ⟨i, hi⟩).W + 0.05) }).get? j =
          ([cHalf] : List SemanticConcept).get? j :=
  C10_predict_updates_wisdom [cZero] [cHalf] (by simp) (by simp)
